import Mathlib

/- Verification of the core contracts of the Puppeteer-Automation repository
   (src/main.py): executable discovery (SystemManager.find_executables),
   dependency installation (PuppeteerManager.ensure_installation), script
   composition (PuppeteerManager.create_script) and script execution
   (PuppeteerManager.execute_script).

   The embedding is shallow: the pure string templating is translated to Lean
   string functions whose literals are the exact text the Python f-strings
   produce (with the CONFIG constants 45000 and 300 substituted, as in the
   source); the effectful subprocess/filesystem code is translated to explicit
   state passing, with the behaviour of the external world (the child process,
   the probe commands, the package manager) supplied as an explicit outcome
   argument.  Machine integers do not occur; exit codes are Int.  Fallible
   external calls are modelled by outcome constructors mirroring the except
   arms of the source. -/

set_option maxRecDepth 4096

set_option linter.unusedVariables false

/- Character constants used when talking about the composed script text.
   They are written via Char.ofNat: 39 is the single quote, 92 the backslash,
   10 LF, 13 CR, 34 the double quote. -/

def squote : Char := Char.ofNat 39

def bslash : Char := Char.ofNat 92

def lf : Char := Char.ofNat 10

def cr : Char := Char.ofNat 13

def dquote : Char := Char.ofNat 34

def squote_str : String := String.singleton squote

/-- Viewport sub-dictionary of CONFIG (src/main.py line 33). -/
structure Viewport where
  width : Nat
  height : Nat

/-- The CONFIG dictionary of src/main.py lines 29-36. -/
structure Config where
  app_title : String
  app_subtitle : String
  timeout : Nat
  viewport : Viewport
  analysis_timeout : Nat
  installation_timeout : Nat

/-- CONFIG values as written in the source: timeout 300, analysis 45000,
installation 600. -/
def CONFIG : Config :=
  ⟨"🎓 Academic Browser Automation System",
   "Demonstrating Modern Web Automation Principles",
   300, ⟨1280, 720⟩, 45000, 600⟩

/- The script template text.  The following string constants hold, byte for
   byte, the text that the Python string literals of create_script evaluate
   to (the f-string braces halved and the CONFIG values 45000 substituted,
   exactly as Python does).  The research body is decomposed at its single
   interpolation point, const url = '{url}';  research_pre_head is the text
   before the opening single quote, research_post_rest the text after the
   closing quote and the semicolon, so that
   research_pre_head ++ "'" ++ url ++ "';" ++ research_post_rest
   is the research body with the caller's url interpolated. -/
def base_config : String := "\n        const puppeteer = require(\x27puppeteer\x27);\n        const delay = ms => new Promise(resolve => setTimeout(resolve, ms));\n        \n        (async () => \x7b\n            try \x7b\n                console.log(\x27🚀 Initializing browser automation...\x27);\n                \n                const browser = await puppeteer.launch(\x7b\n                    headless: false,\n                    defaultViewport: \x7b width: 1280, height: 720 \x7d,\n                    args: [\x27--no-sandbox\x27, \x27--disable-setuid-sandbox\x27]\n                \x7d);\n                \n                const page = await browser.newPage();\n        "

def demo_body : String := "\n                console.log(\x27📖 Academic Demo: Comprehensive Research Portal Analysis...\x27);\n                await page.goto(\x27https://scholar.google.com\x27, \x7b \n                    waitUntil: \x27networkidle2\x27, timeout: 45000\n                \x7d);\n                \n                // Comprehensive page analysis\n                console.log(\x27🔍 Performing detailed page analysis...\x27);\n                const analysis = await page.evaluate(() => \x7b\n                    const getTextContent = (selector) => \x7b\n                        const el = document.querySelector(selector);\n                        return el ? el.textContent.trim() : \x27Not found\x27;\n                    \x7d;\n                    \n                    const countElements = (selector) => document.querySelectorAll(selector).length;\n                    \n                    return \x7b\n                        // Basic metadata\n                        title: document.title,\n                        url: window.location.href,\n                        charset: document.characterSet,\n                        lastModified: document.lastModified,\n                        \n                        // Content analysis\n                        totalLinks: countElements(\x27a\x27),\n                        externalLinks: Array.from(document.querySelectorAll(\x27a\x27)).filter(a => \n                            a.href && !a.href.includes(window.location.hostname)).length,\n                        images: countElements(\x27img\x27),\n                        forms: countElements(\x27form\x27),\n                        buttons: countElements(\x27button\x27),\n                        inputs: countElements(\x27input\x27),\n                        \n                        // Structure analysis\n                        headings: \x7b\n                            h1: countElements(\x27h1\x27),\n                            h2: countElements(\x27h2\x27),\n                            h3: countElements(\x27h3\x27),\n                            h4: countElements(\x27h4\x27),\n                            h5: countElements(\x27h5\x27),\n                            h6: countElements(\x27h6\x27)\n                        \x7d,\n                        \n                        // Content metrics\n                        textLength: document.body.innerText.length,\n                        wordCount: document.body.innerText.split(/\\s+/).length,\n                        paragraphs: countElements(\x27p\x27),\n                        lists: countElements(\x27ul, ol\x27),\n                        tables: countElements(\x27table\x27),\n                        \n                        // Technical analysis\n                        hasServiceWorker: \x27serviceWorker\x27 in navigator,\n                        hasLocalStorage: typeof(Storage) !== \"undefined\",\n                        viewportWidth: window.innerWidth,\n                        viewportHeight: window.innerHeight,\n                        \n                        // Performance hints\n                        loadTime: performance.timing.loadEventEnd - performance.timing.navigationStart,\n                        domElements: document.getElementsByTagName(\x27*\x27).length\n                    \x7d;\n                \x7d);\n                \n                // Display comprehensive analysis\n                console.log(\x27📊 COMPREHENSIVE WEBSITE ANALYSIS REPORT\x27);\n                console.log(\x27=\x27 .repeat(50));\n                console.log(\x60📝 Title: $\x7banalysis.title\x7d\x60);\n                console.log(\x60🌐 URL: $\x7banalysis.url\x7d\x60);\n                console.log(\x60📅 Last Modified: $\x7banalysis.lastModified\x7d\x60);\n                console.log(\x60⚡ Load Time: $\x7banalysis.loadTime\x7dms\x60);\n                console.log(\x27\x27);\n                \n                console.log(\x27🔗 LINK ANALYSIS:\x27);\n                console.log(\x60   Total Links: $\x7banalysis.totalLinks\x7d\x60);\n                console.log(\x60   External Links: $\x7banalysis.externalLinks\x7d\x60);\n                console.log(\x60   Internal Links: $\x7banalysis.totalLinks - analysis.externalLinks\x7d\x60);\n                console.log(\x27\x27);\n                \n                console.log(\x27🏗️ STRUCTURE ANALYSIS:\x27);\n                console.log(\x60   H1 Headings: $\x7banalysis.headings.h1\x7d\x60);\n                console.log(\x60   H2 Headings: $\x7banalysis.headings.h2\x7d\x60);\n                console.log(\x60   H3 Headings: $\x7banalysis.headings.h3\x7d\x60);\n                console.log(\x60   Total DOM Elements: $\x7banalysis.domElements\x7d\x60);\n                console.log(\x60   Paragraphs: $\x7banalysis.paragraphs\x7d\x60);\n                console.log(\x60   Lists: $\x7banalysis.lists\x7d\x60);\n                console.log(\x60   Tables: $\x7banalysis.tables\x7d\x60);\n                console.log(\x27\x27);\n                \n                console.log(\x27📝 CONTENT METRICS:\x27);\n                console.log(\x60   Text Length: $\x7banalysis.textLength.toLocaleString()\x7d characters\x60);\n                console.log(\x60   Word Count: $\x7banalysis.wordCount.toLocaleString()\x7d words\x60);\n                console.log(\x60   Images: $\x7banalysis.images\x7d\x60);\n                console.log(\x27\x27);\n                \n                console.log(\x27⚙️ INTERACTIVE ELEMENTS:\x27);\n                console.log(\x60   Forms: $\x7banalysis.forms\x7d\x60);\n                console.log(\x60   Buttons: $\x7banalysis.buttons\x7d\x60);\n                console.log(\x60   Input Fields: $\x7banalysis.inputs\x7d\x60);\n                console.log(\x27\x27);\n                \n                console.log(\x27🖥️ TECHNICAL DETAILS:\x27);\n                console.log(\x60   Viewport: $\x7banalysis.viewportWidth\x7dx$\x7banalysis.viewportHeight\x7d\x60);\n                console.log(\x60   Character Set: $\x7banalysis.charset\x7d\x60);\n                console.log(\x60   Service Worker: $\x7banalysis.hasServiceWorker ? \x27Available\x27 : \x27Not Available\x27\x7d\x60);\n                console.log(\x60   Local Storage: $\x7banalysis.hasLocalStorage ? \x27Available\x27 : \x27Not Available\x27\x7d\x60);\n                console.log(\x27\x27);\n                \n                // Take screenshot with timestamp\n                const timestamp = new Date().toISOString().replace(/[:.]/g, \x27-\x27);\n                const screenshotPath = \x60academic_demo_$\x7btimestamp\x7d.png\x60;\n                await page.screenshot(\x7b \n                    path: screenshotPath, \n                    fullPage: true,\n                    type: \x27png\x27\n                \x7d);\n                console.log(\x60📸 Full-page screenshot saved: $\x7bscreenshotPath\x7d\x60);\n                \n                // Generate summary report\n                const efficiency = analysis.textLength / analysis.domElements;\n                const linkDensity = (analysis.totalLinks / analysis.wordCount * 100).toFixed(2);\n                \n                console.log(\x27📈 EFFICIENCY METRICS:\x27);\n                console.log(\x60   Content Efficiency: $\x7befficiency.toFixed(2)\x7d chars/element\x60);\n                console.log(\x60   Link Density: $\x7blinkDensity\x7d% (links per 100 words)\x60);\n                console.log(\x60   Heading Structure: $\x7banalysis.headings.h1 > 0 ? \x27Good\x27 : \x27Missing H1\x27\x7d\x60);\n                \n                await delay(5000);\n                await browser.close();\n                console.log(\x27✅ Comprehensive academic demo completed successfully\x27);\n            "

def research_pre_head : String := "\n                const url = "

def research_post_rest : String := "\n                console.log(\x60🔬 ADVANCED RESEARCH MODE: Deep Analysis of $\x7burl\x7d\x60);\n                console.log(\x27=\x27 .repeat(60));\n                \n                // Navigate with extended timeout\n                await page.goto(url, \x7b \n                    waitUntil: \x27networkidle2\x27, \n                    timeout: 45000\n                \x7d);\n                \n                console.log(\x27⏱️ Page loaded, beginning comprehensive analysis...\x27);\n                \n                // Advanced metrics collection\n                const detailedMetrics = await page.evaluate(() => \x7b\n                    // Helper functions\n                    const getTextContent = (selector) => \x7b\n                        const el = document.querySelector(selector);\n                        return el ? el.textContent.trim() : null;\n                    \x7d;\n                    \n                    const countElements = (selector) => document.querySelectorAll(selector).length;\n                    \n                    const getMetaTags = () => \x7b\n                        const metas = \x7b\x7d;\n                        document.querySelectorAll(\x27meta\x27).forEach(meta => \x7b\n                            const name = meta.getAttribute(\x27name\x27) || meta.getAttribute(\x27property\x27);\n                            if (name) metas[name] = meta.getAttribute(\x27content\x27);\n                        \x7d);\n                        return metas;\n                    \x7d;\n                    \n                    const analyzeColors = () => \x7b\n                        const styles = window.getComputedStyle(document.body);\n                        return \x7b\n                            backgroundColor: styles.backgroundColor,\n                            color: styles.color,\n                            fontFamily: styles.fontFamily,\n                            fontSize: styles.fontSize\n                        \x7d;\n                    \x7d;\n                    \n                    const checkAccessibility = () => \x7b\n                        return \x7b\n                            hasAltTexts: Array.from(document.querySelectorAll(\x27img\x27)).every(img => img.alt),\n                            hasAriaLabels: countElements(\x27[aria-label]\x27),\n                            hasHeadingStructure: countElements(\x27h1\x27) > 0,\n                            hasLangAttribute: document.documentElement.hasAttribute(\x27lang\x27),\n                            focusableElements: countElements(\x27a, button, input, select, textarea, [tabindex]\x27)\n                        \x7d;\n                    \x7d;\n                    \n                    return \x7b\n                        // Basic Information\n                        basic: \x7b\n                            title: document.title,\n                            url: window.location.href,\n                            domain: window.location.hostname,\n                            protocol: window.location.protocol,\n                            charset: document.characterSet,\n                            language: document.documentElement.lang || \x27Not specified\x27,\n                            lastModified: document.lastModified\n                        \x7d,\n                        \n                        // Content Analysis\n                        content: \x7b\n                            textLength: document.body.innerText.length,\n                            wordCount: document.body.innerText.split(/\\s+/).filter(word => word.length > 0).length,\n                            readingTime: Math.ceil(document.body.innerText.split(/\\s+/).length / 200), // avg 200 wpm\n                            totalLinks: countElements(\x27a\x27),\n                            externalLinks: Array.from(document.querySelectorAll(\x27a\x27)).filter(a => \n                                a.href && !a.href.includes(window.location.hostname)).length,\n                            images: countElements(\x27img\x27),\n                            videos: countElements(\x27video\x27),\n                            audios: countElements(\x27audio\x27)\n                        \x7d,\n                        \n                        // Structure Analysis\n                        structure: \x7b\n                            headings: \x7b\n                                h1: countElements(\x27h1\x27),\n                                h2: countElements(\x27h2\x27),\n                                h3: countElements(\x27h3\x27),\n                                h4: countElements(\x27h4\x27),\n                                h5: countElements(\x27h5\x27),\n                                h6: countElements(\x27h6\x27)\n                            \x7d,\n                            lists: countElements(\x27ul, ol\x27),\n                            tables: countElements(\x27table\x27),\n                            forms: countElements(\x27form\x27),\n                            buttons: countElements(\x27button\x27),\n                            inputs: countElements(\x27input\x27),\n                            paragraphs: countElements(\x27p\x27),\n                            divs: countElements(\x27div\x27),\n                            spans: countElements(\x27span\x27)\n                        \x7d,\n                        \n                        // Technical Analysis\n                        technical: \x7b\n                            totalElements: document.querySelectorAll(\x27*\x27).length,\n                            scripts: countElements(\x27script\x27),\n                            stylesheets: countElements(\x27link[rel=\"stylesheet\"]\x27),\n                            hasServiceWorker: \x27serviceWorker\x27 in navigator,\n                            hasWebGL: !!window.WebGLRenderingContext,\n                            hasGeolocation: \x27geolocation\x27 in navigator,\n                            hasLocalStorage: typeof(Storage) !== \"undefined\",\n                            viewportWidth: window.innerWidth,\n                            viewportHeight: window.innerHeight,\n                            screenWidth: window.screen.width,\n                            screenHeight: window.screen.height\n                        \x7d,\n                        \n                        // Performance Metrics\n                        performance: \x7b\n                            loadTime: performance.timing.loadEventEnd - performance.timing.navigationStart,\n                            domContentLoaded: performance.timing.domContentLoadedEventEnd - performance.timing.navigationStart,\n                            firstPaint: performance.getEntriesByType(\x27paint\x27).find(p => p.name === \x27first-paint\x27)?.startTime || \x27N/A\x27,\n                            firstContentfulPaint: performance.getEntriesByType(\x27paint\x27).find(p => p.name === \x27first-contentful-paint\x27)?.startTime || \x27N/A\x27\n                        \x7d,\n                        \n                        // SEO Analysis\n                        seo: \x7b\n                            metaTags: getMetaTags(),\n                            hasTitle: !!document.title,\n                            titleLength: document.title.length,\n                            hasMetaDescription: !!document.querySelector(\x27meta[name=\"description\"]\x27),\n                            hasCanonical: !!document.querySelector(\x27link[rel=\"canonical\"]\x27),\n                            hasRobots: !!document.querySelector(\x27meta[name=\"robots\"]\x27),\n                            structuredData: countElements(\x27script[type=\"application/ld+json\"]\x27)\n                        \x7d,\n                        \n                        // Design Analysis\n                        design: analyzeColors(),\n                        \n                        // Accessibility Check\n                        accessibility: checkAccessibility()\n                    \x7d;\n                \x7d);\n                \n                // Generate comprehensive report\n                console.log(\x27📊 DETAILED RESEARCH ANALYSIS REPORT\x27);\n                console.log(\x27=\x27 .repeat(60));\n                \n                // Basic Information\n                console.log(\x27📋 BASIC INFORMATION:\x27);\n                console.log(\x60   Title: $\x7bdetailedMetrics.basic.title\x7d\x60);\n                console.log(\x60   Domain: $\x7bdetailedMetrics.basic.domain\x7d\x60);\n                console.log(\x60   Protocol: $\x7bdetailedMetrics.basic.protocol\x7d\x60);\n                console.log(\x60   Language: $\x7bdetailedMetrics.basic.language\x7d\x60);\n                console.log(\x60   Character Set: $\x7bdetailedMetrics.basic.charset\x7d\x60);\n                console.log(\x60   Last Modified: $\x7bdetailedMetrics.basic.lastModified\x7d\x60);\n                console.log(\x27\x27);\n                \n                // Content Metrics\n                console.log(\x27📝 CONTENT ANALYSIS:\x27);\n                console.log(\x60   Word Count: $\x7bdetailedMetrics.content.wordCount.toLocaleString()\x7d words\x60);\n                console.log(\x60   Character Count: $\x7bdetailedMetrics.content.textLength.toLocaleString()\x7d characters\x60);\n                console.log(\x60   Estimated Reading Time: $\x7bdetailedMetrics.content.readingTime\x7d minutes\x60);\n                console.log(\x60   Total Links: $\x7bdetailedMetrics.content.totalLinks\x7d\x60);\n                console.log(\x60   External Links: $\x7bdetailedMetrics.content.externalLinks\x7d\x60);\n                console.log(\x60   Internal Links: $\x7bdetailedMetrics.content.totalLinks - detailedMetrics.content.externalLinks\x7d\x60);\n                console.log(\x60   Images: $\x7bdetailedMetrics.content.images\x7d\x60);\n                console.log(\x60   Videos: $\x7bdetailedMetrics.content.videos\x7d\x60);\n                console.log(\x60   Audio Elements: $\x7bdetailedMetrics.content.audios\x7d\x60);\n                console.log(\x27\x27);\n                \n                // Structure Analysis\n                console.log(\x27🏗️ STRUCTURE ANALYSIS:\x27);\n                console.log(\x60   H1 Tags: $\x7bdetailedMetrics.structure.headings.h1\x7d\x60);\n                console.log(\x60   H2 Tags: $\x7bdetailedMetrics.structure.headings.h2\x7d\x60);\n                console.log(\x60   H3 Tags: $\x7bdetailedMetrics.structure.headings.h3\x7d\x60);\n                console.log(\x60   Total Headings: $\x7bObject.values(detailedMetrics.structure.headings).reduce((a,b) => a+b, 0)\x7d\x60);\n                console.log(\x60   Paragraphs: $\x7bdetailedMetrics.structure.paragraphs\x7d\x60);\n                console.log(\x60   Lists: $\x7bdetailedMetrics.structure.lists\x7d\x60);\n                console.log(\x60   Tables: $\x7bdetailedMetrics.structure.tables\x7d\x60);\n                console.log(\x60   Forms: $\x7bdetailedMetrics.structure.forms\x7d\x60);\n                console.log(\x60   Interactive Elements: $\x7bdetailedMetrics.structure.buttons + detailedMetrics.structure.inputs\x7d\x60);\n                console.log(\x27\x27);\n                \n                // Technical Analysis\n                console.log(\x27⚙️ TECHNICAL ANALYSIS:\x27);\n                console.log(\x60   Total DOM Elements: $\x7bdetailedMetrics.technical.totalElements.toLocaleString()\x7d\x60);\n                console.log(\x60   JavaScript Files: $\x7bdetailedMetrics.technical.scripts\x7d\x60);\n                console.log(\x60   CSS Stylesheets: $\x7bdetailedMetrics.technical.stylesheets\x7d\x60);\n                console.log(\x60   Viewport: $\x7bdetailedMetrics.technical.viewportWidth\x7dx$\x7bdetailedMetrics.technical.viewportHeight\x7d\x60);\n                console.log(\x60   Screen Resolution: $\x7bdetailedMetrics.technical.screenWidth\x7dx$\x7bdetailedMetrics.technical.screenHeight\x7d\x60);\n                console.log(\x60   Modern Features:\x60);\n                console.log(\x60     - Service Worker: $\x7bdetailedMetrics.technical.hasServiceWorker ? \x27✅\x27 : \x27❌\x27\x7d\x60);\n                console.log(\x60     - WebGL: $\x7bdetailedMetrics.technical.hasWebGL ? \x27✅\x27 : \x27❌\x27\x7d\x60);\n                console.log(\x60     - Geolocation: $\x7bdetailedMetrics.technical.hasGeolocation ? \x27✅\x27 : \x27❌\x27\x7d\x60);\n                console.log(\x60     - Local Storage: $\x7bdetailedMetrics.technical.hasLocalStorage ? \x27✅\x27 : \x27❌\x27\x7d\x60);\n                console.log(\x27\x27);\n                \n                // Performance Metrics\n                console.log(\x27⚡ PERFORMANCE METRICS:\x27);\n                console.log(\x60   Total Load Time: $\x7bdetailedMetrics.performance.loadTime\x7dms\x60);\n                console.log(\x60   DOM Content Loaded: $\x7bdetailedMetrics.performance.domContentLoaded\x7dms\x60);\n                console.log(\x60   First Paint: $\x7bdetailedMetrics.performance.firstPaint\x7dms\x60);\n                console.log(\x60   First Contentful Paint: $\x7bdetailedMetrics.performance.firstContentfulPaint\x7dms\x60);\n                console.log(\x27\x27);\n                \n                // SEO Analysis\n                console.log(\x27🔍 SEO ANALYSIS:\x27);\n                console.log(\x60   Page Title: $\x7bdetailedMetrics.seo.hasTitle ? \x27✅\x27 : \x27❌\x27\x7d ($\x7bdetailedMetrics.seo.titleLength\x7d chars)\x60);\n                console.log(\x60   Meta Description: $\x7bdetailedMetrics.seo.hasMetaDescription ? \x27✅\x27 : \x27❌\x27\x7d\x60);\n                console.log(\x60   Canonical URL: $\x7bdetailedMetrics.seo.hasCanonical ? \x27✅\x27 : \x27❌\x27\x7d\x60);\n                console.log(\x60   Robots Meta: $\x7bdetailedMetrics.seo.hasRobots ? \x27✅\x27 : \x27❌\x27\x7d\x60);\n                console.log(\x60   Structured Data: $\x7bdetailedMetrics.seo.structuredData\x7d schemas found\x60);\n                console.log(\x27\x27);\n                \n                // Accessibility Analysis\n                console.log(\x27♿ ACCESSIBILITY ANALYSIS:\x27);\n                console.log(\x60   Alt Text Coverage: $\x7bdetailedMetrics.accessibility.hasAltTexts ? \x27✅ Complete\x27 : \x27❌ Incomplete\x27\x7d\x60);\n                console.log(\x60   ARIA Labels: $\x7bdetailedMetrics.accessibility.hasAriaLabels\x7d elements\x60);\n                console.log(\x60   Heading Structure: $\x7bdetailedMetrics.accessibility.hasHeadingStructure ? \x27✅ Present\x27 : \x27❌ Missing\x27\x7d\x60);\n                console.log(\x60   Language Attribute: $\x7bdetailedMetrics.accessibility.hasLangAttribute ? \x27✅ Present\x27 : \x27❌ Missing\x27\x7d\x60);\n                console.log(\x60   Focusable Elements: $\x7bdetailedMetrics.accessibility.focusableElements\x7d\x60);\n                console.log(\x27\x27);\n                \n                // Calculate quality scores\n                const contentQuality = Math.min(100, (detailedMetrics.content.wordCount / 10));\n                const structureQuality = Math.min(100, (Object.values(detailedMetrics.structure.headings).reduce((a,b) => a+b, 0) * 10));\n                const seoQuality = [\n                    detailedMetrics.seo.hasTitle,\n                    detailedMetrics.seo.hasMetaDescription,\n                    detailedMetrics.seo.titleLength > 10 && detailedMetrics.seo.titleLength < 60\n                ].filter(Boolean).length * 33.33;\n                \n                console.log(\x27📈 QUALITY SCORES:\x27);\n                console.log(\x60   Content Quality: $\x7bcontentQuality.toFixed(1)\x7d%\x60);\n                console.log(\x60   Structure Quality: $\x7bstructureQuality.toFixed(1)\x7d%\x60);\n                console.log(\x60   SEO Quality: $\x7bseoQuality.toFixed(1)\x7d%\x60);\n                console.log(\x60   Performance Score: $\x7bdetailedMetrics.performance.loadTime < 3000 ? \x27✅ Good\x27 : \x27⚠️ Needs Improvement\x27\x7d\x60);\n                \n                await delay(3000);\n                await browser.close();\n                console.log(\x27🎯 Advanced research analysis completed successfully\x27);\n            "

def default_body : String := "\n                console.log(\x27📖 Default demo mode\x27);\n                await page.goto(\x27https://example.com\x27);\n                await delay(2000);\n                await browser.close();\n            "

def footer_text : String := "\n\x7d catch(error) \x7b console.error(\x27❌ Error:\x27, error.message); process.exit(1); \x7d \x7d)();"

def package_json_text : String := "\x7b\n  \"name\": \"academic-browser-automation\",\n  \"version\": \"1.0.0\",\n  \"description\": \"Academic demonstration of browser automation with detailed analysis\",\n  \"main\": \"index.js\",\n  \"dependencies\": \x7b\n    \"puppeteer\": \"^21.0.0\"\n  \x7d,\n  \"devDependencies\": \x7b\x7d,\n  \"scripts\": \x7b\n    \"test\": \"node test.js\"\n  \x7d,\n  \"keywords\": [\n    \"automation\",\n    \"academic\",\n    \"browser\",\n    \"research\"\n  ],\n  \"author\": \"Academic Project\",\n  \"license\": \"MIT\"\n\x7d"

/- Composition of the research body at its interpolation point.  In the
   source (line 279) the url is interpolated between single quotes:
   const url = '{url}';  -/

def research_post_tail : String := ";" ++ research_post_rest

def research_body_pre : String := research_pre_head ++ squote_str

def research_body_post : String := squote_str ++ research_post_tail

def research_body (url : String) : String :=
  research_body_pre ++ url ++ research_body_post

/-- PuppeteerManager.create_script (src/main.py lines 126-524): dynamic script
generation.  The Python keyword arguments are modelled as an association list;
kwargs.get("url", "https://example.com") becomes lookup with a default. -/
def create_script (action : String) (kwargs : List (String × String)) : String :=
  let script_body :=
    if action = "demo" then demo_body
    else if action = "research" then
      let url := (kwargs.lookup "url").getD "https://example.com"
      research_body url
    else default_body
  base_config ++ script_body ++ footer_text

/-- Lexer for the body of a JavaScript single-quoted string literal, started
just after the opening quote: a backslash escapes the following character, an
unescaped single quote closes the literal (returning the remaining
characters), a raw line terminator (LF or CR) or running out of input leaves
the literal unterminated (none).  This models the quoting discipline the
composed script's const url = '...' literal is subject to. -/
def scanSingleQuoted : List Char → Option (List Char)
  | [] => none
  | c :: cs =>
    if c = squote then some cs
    else if c = bslash then
      match cs with
      | [] => none
      | _ :: cs2 => scanSingleQuoted cs2
    else if c = lf ∨ c = cr then none
    else scanSingleQuoted cs

/-- A character that cannot disturb a single-quoted JavaScript literal: not a
single quote, not a backslash, not a line terminator.  A double quote is such
a character. -/
def goodUrlChar (c : Char) : Bool :=
  decide (c ≠ squote ∧ c ≠ bslash ∧ c ≠ lf ∧ c ≠ cr)

/- Model of the length of Python's str.splitlines() for the LF, CR and CRLF
   terminators (the further Unicode line boundaries Python also splits on are
   not modelled; no claim depends on the numeric value).  The count is: one
   line per terminator (CRLF counting once) plus one for a nonempty trailing
   segment. -/

def cr_alone : List Char → Nat
  | [] => 0
  | [c] => if c = cr then 1 else 0
  | c :: c2 :: cs => (if c = cr ∧ c2 ≠ lf then 1 else 0) + cr_alone (c2 :: cs)

/-- Number of lines str.splitlines() yields, as used by the stdout_lines and
stderr_lines statistics of execute_script (src/main.py lines 547-548). -/
def splitlines_len (s : String) : Nat :=
  s.data.count lf + cr_alone s.data +
    (match s.data.getLast? with
     | none => 0
     | some c => if c = lf ∨ c = cr then 0 else 1)

/- The host filesystem, modelled as an association list from file names to
   contents.  open(name, 'w') followed by write is fsWrite; os.remove is
   fsRemove; Path(name).exists() is fsExists. -/

abbrev FS := List (String × String)

def fsWrite (fs : FS) (name content : String) : FS :=
  (name, content) :: fs.filter (fun p => !(p.1 == name))

def fsRemove (fs : FS) (name : String) : FS :=
  fs.filter (fun p => !(p.1 == name))

def fsExists (fs : FS) (name : String) : Bool :=
  fs.any (fun p => p.1 == name)

/-- Outcome of the subprocess.run([node_path, script_file], ...) call inside
execute_script: normal completion with an exit code and captured streams,
subprocess.TimeoutExpired, or any other exception (carrying type name and
message, as the source reads them via type(e).__name__ and str(e)). -/
inductive RunOutcome where
  | completed (returncode : Int) (stdout : String) (stderr : String)
  | timedOut
  | raised (excType excMsg : String)

/-- Behaviour of the external world during one execute_script call: either
the initial open/write of the script file raises, or the write succeeds and
the child process run has the given outcome. -/
inductive Behavior where
  | writeRaises (excType excMsg : String)
  | runs (o : RunOutcome)

/-- The result dictionary of execute_script.  One constructor per return
statement of the source (lines 540, 554, 561): the three dictionaries carry
different keys, which the constructors mirror exactly. -/
inductive ExecResult where
  | completed (success : Bool) (output : String) (error : Option String)
      (return_code : Int) (execution_time : String)
      (stdout_lines stderr_lines total_output_chars : Nat)
  | timedOut (success : Bool) (error : String) (execution_time : String)
      (timeout_reason : String)
  | failed (success : Bool) (error : String)
      (exception_type exception_message : String)

/-- The "success" key, present in every result dictionary. -/
def ExecResult.successField : ExecResult → Bool
  | .completed s _ _ _ _ _ _ _ => s
  | .timedOut s _ _ _ => s
  | .failed s _ _ _ => s

/-- The "output" key (captured stdout): present only in the
normal-completion dictionary. -/
def ExecResult.outputField : ExecResult → Option String
  | .completed _ out _ _ _ _ _ _ => some out
  | .timedOut _ _ _ _ => none
  | .failed _ _ _ _ => none

/-- The "return_code" key: present only in the normal-completion
dictionary. -/
def ExecResult.returnCodeField : ExecResult → Option Int
  | .completed _ _ _ rc _ _ _ _ => some rc
  | .timedOut _ _ _ _ => none
  | .failed _ _ _ _ => none

/-- The output statistics (stdout_lines, stderr_lines, total_output_chars)
of the "details" sub-dictionary: present only in the normal-completion
dictionary. -/
def ExecResult.statsField : ExecResult → Option (Nat × Nat × Nat)
  | .completed _ _ _ _ _ sl el tc => some (sl, el, tc)
  | .timedOut _ _ _ _ => none
  | .failed _ _ _ _ => none

/-- The "error" key of the normal-completion dictionary: the Python value
result.stderr if result.stderr else None, i.e. none exactly for empty
stderr.  (On the other two constructors, which carry a diagnostic message
instead of captured stderr, this accessor returns none.) -/
def ExecResult.stderrField : ExecResult → Option String
  | .completed _ _ e _ _ _ _ _ => e
  | .timedOut _ _ _ _ => none
  | .failed _ _ _ _ => none

/-- The fixed transient file name of execute_script (src/main.py line 529):
script_file = 'temp_automation.js'. -/
def script_file_name : String := "temp_automation.js"

/-- One call of PuppeteerManager.execute_script: the returned dictionary, the
filesystem after the call, and the transient file name the call used. -/
structure ExecCall where
  result : ExecResult
  fs : FS
  script_file : String

/-- PuppeteerManager.execute_script (src/main.py lines 526-570).  The script
is written to the fixed transient file, the child process outcome is taken
from the Behavior argument, and the finally block removes the transient file
on every path (os.remove is modelled as succeeding; when the initial write
raises, the file created by open is likewise removed by the finally block,
so the final filesystem is the same either way). -/
def execute_script (fs : FS) (node_path script : String) (b : Behavior) :
    ExecCall :=
  match b with
  | .writeRaises ty msg =>
      let fs1 := fsWrite fs script_file_name ""
      ⟨.failed false ("Execution error: " ++ msg) ty msg,
       fsRemove fs1 script_file_name, script_file_name⟩
  | .runs o =>
      let fs1 := fsWrite fs script_file_name script
      let res : ExecResult :=
        match o with
        | .completed code out err =>
            .completed (code == 0) out (if err = "" then none else some err)
              code "Completed within timeout"
              (if out = "" then 0 else splitlines_len out)
              (if err = "" then 0 else splitlines_len err)
              (out.length + err.length)
        | .timedOut =>
            .timedOut false
              ("Execution timeout after " ++ toString CONFIG.timeout ++
                " seconds - process was terminated for safety")
              ("Exceeded " ++ toString CONFIG.timeout ++ "s timeout")
              "Process took longer than expected - may indicate network issues or complex page loading"
        | .raised ty msg =>
            .failed false ("Execution error: " ++ msg) ty msg
      ⟨res, fsRemove fs1 script_file_name, script_file_name⟩

/-- Outcome of one discovery probe (subprocess.run(['which'/'where', name]))
in SystemManager.find_executables: the call either raises or returns an exit
code and captured stdout. -/
inductive ProbeOutcome where
  | raised
  | ran (returncode : Int) (stdout : String)

/-- result.stdout.strip().split('\n')[0] of the probe output
(src/main.py lines 51 and 58). -/
def strip_first_line (s : String) : String :=
  ((s.trim).splitOn "\n").headD ""

/-- SystemManager.find_executables (src/main.py lines 41-61): each probe is
wrapped in try/except pass, a path is produced only when the probe returned
exit code zero, and every failure is represented as none. -/
def find_executables (nodeProbe npmProbe : ProbeOutcome) :
    Option String × Option String :=
  let node_path : Option String :=
    match nodeProbe with
    | .raised => none
    | .ran rc out => if rc = 0 then some (strip_first_line out) else none
  let npm_path : Option String :=
    match npmProbe with
    | .raised => none
    | .ran rc out => if rc = 0 then some (strip_first_line out) else none
  (node_path, npm_path)

/-- A probe that found nothing: the subprocess call raised, or it returned a
non-zero exit code (as which/where do for an absent executable). -/
def probe_fails : ProbeOutcome → Bool
  | .raised => true
  | .ran rc _ => !(rc == 0)

/-- State read and written by ensure_installation: whether the node_modules
directory exists, the files on disk, and how often the package manager has
been invoked. -/
structure InstallState where
  node_modules_exists : Bool
  files : FS
  npm_invocations : Nat

/-- Outcome of the subprocess.run([npm_path, 'install'], ...) call: it raises
(including TimeoutExpired), or it runs to an exit code with captured streams;
creates_node_modules records whether the install materialised the dependency
directory. -/
inductive NpmOutcome where
  | raised (msg : String)
  | ran (returncode : Int) (stdout stderr : String)
      (creates_node_modules : Bool)

/-- Behaviour of the external world during one ensure_installation call on
the slow path: writing package.json raises, or the write succeeds and the
manager invocation has the given outcome. -/
inductive InstallBehavior where
  | writeRaises (msg : String)
  | writeOk (npm : NpmOutcome)

/-- The dictionary returned by ensure_installation; the details sub-dictionary
keys are optional because the three return statements carry different ones
(the fast path carries no details key at all). -/
structure InstallResult where
  success : Bool
  message : String
  details_stdout : Option String
  details_stderr : Option String
  details_return_code : Option Int
  details_error : Option String

/-- PuppeteerManager.ensure_installation (src/main.py lines 81-123).  Fast
path: if node_modules exists, return success immediately (no file write, no
manager invocation, state unchanged).  Slow path: write package.json, invoke
the manager (counted in npm_invocations), success iff exit code zero; any
exception is returned as a failure dictionary with its message. -/
def ensure_installation (npm_path : String) (st : InstallState)
    (b : InstallBehavior) : InstallResult × InstallState :=
  if st.node_modules_exists then
    (⟨true, "Dependencies already installed", none, none, none, none⟩, st)
  else
    match b with
    | .writeRaises msg =>
        (⟨false, msg, none, none, none, some msg⟩, st)
    | .writeOk npm =>
        let files1 := fsWrite st.files "package.json" package_json_text
        match npm with
        | .raised msg =>
            (⟨false, msg, none, none, none, some msg⟩,
             ⟨st.node_modules_exists, files1, st.npm_invocations + 1⟩)
        | .ran rc out err creates =>
            (⟨rc == 0, if rc == 0 then "Installation successful" else err,
              some out, some err, some rc, none⟩,
             ⟨creates, files1, st.npm_invocations + 1⟩)
/- Helper lemmas shared by the claim theorems. -/

/-- Removing a file makes fsExists false for it, whatever the filesystem. -/
theorem fsExists_fsRemove (fs : FS) (name : String) :
    fsExists (fsRemove fs name) name = false := by
  simp only [fsExists, fsRemove, List.any_eq_false]
  intro x hx
  have hpx := (List.mem_filter.mp hx).2
  simp only [Bool.not_eq_true'] at hpx
  simp [hpx]

/-- Unfolding scanSingleQuoted at the closing quote. -/
theorem scanSingleQuoted_cons_squote (cs : List Char) :
    scanSingleQuoted (squote :: cs) = some cs := by
  unfold scanSingleQuoted
  rw [if_pos rfl]

/-- Unfolding scanSingleQuoted at an undisturbing character. -/
theorem scanSingleQuoted_cons_other (c : Char) (cs : List Char)
    (hs : ¬ c = squote) (hb : ¬ c = bslash) (hlr : ¬(c = lf ∨ c = cr)) :
    scanSingleQuoted (c :: cs) = scanSingleQuoted cs := by
  conv_lhs => unfold scanSingleQuoted
  rw [if_neg hs, if_neg hb, if_neg hlr]

/-- The research-body text after the interpolation point starts with the
intended closing single quote. -/
theorem research_body_post_data :
    research_body_post.data = squote :: research_post_tail.data := by
  show (squote_str ++ research_post_tail).data = squote :: research_post_tail.data
  rw [String.data_append]
  rfl

/-- Scanning a single-quoted literal whose body consists of undisturbing
characters closes the literal exactly at the intended closing quote. -/
theorem scanSingleQuoted_good (l : List Char) (h : l.all goodUrlChar = true)
    (rest : List Char) :
    scanSingleQuoted (l ++ squote :: rest) = some rest := by
  induction l with
  | nil => exact scanSingleQuoted_cons_squote rest
  | cons c cs ih =>
    rw [List.all_cons, Bool.and_eq_true] at h
    obtain ⟨hc, hcs⟩ := h
    obtain ⟨hs, hb, hl, hr⟩ := of_decide_eq_true hc
    rw [List.cons_append,
      scanSingleQuoted_cons_other c _ hs hb (not_or.mpr ⟨hl, hr⟩)]
    exact ih hcs

/-- Scanning a literal body that starts with a double quote and then a single
quote closes the literal at that early single quote. -/
theorem scanSingleQuoted_dquote_squote (l : List Char) :
    scanSingleQuoted (dquote :: squote :: l) = some l := by
  have h1 : ¬(dquote = squote) := by decide
  have h2 : ¬(dquote = bslash) := by decide
  have h3 : ¬(dquote = lf ∨ dquote = cr) := by decide
  rw [scanSingleQuoted_cons_other dquote _ h1 h2 h3,
    scanSingleQuoted_cons_squote]

/- The claim theorems. -/

/-- C1: for every invocation of execute_script, on every exit path — normal
completion with zero or non-zero exit, timeout, an exception during the
child-process run, or an exception during the initial write — the transient
script file temp_automation.js no longer exists in the filesystem after the
call returns (the finally block removes it). -/
theorem C1_transient_file_removed (fs : FS) (node_path script : String)
    (b : Behavior) :
    fsExists (execute_script fs node_path script b).fs script_file_name = false := by
  cases b with
  | writeRaises ty msg => exact fsExists_fsRemove _ _
  | runs o => exact fsExists_fsRemove _ _

/-- C2: when the child process exceeds the configured timeout, execute_script
returns (it does not re-raise: the embedding is a total function, mirroring
the except arm that converts TimeoutExpired into a return) a structured
result with success false whose diagnostic message states the configured
timeout bound, and that bound is the default 300. -/
theorem C2_timeout_structured_result (fs : FS) (node_path script : String) :
    (execute_script fs node_path script (.runs .timedOut)).result =
      ExecResult.timedOut false
        ("Execution timeout after " ++ toString CONFIG.timeout ++
          " seconds - process was terminated for safety")
        ("Exceeded " ++ toString CONFIG.timeout ++ "s timeout")
        "Process took longer than expected - may indicate network issues or complex page loading"
    ∧ CONFIG.timeout = 300 :=
  ⟨rfl, rfl⟩

/-- C3: when the child process terminates within the timeout, the result's
success flag is the test returncode == 0 (true iff the exit code is zero),
the exit code is reported unchanged, and the captured stdout and stderr text
are carried verbatim (stderr through the optional error field, which per the
source maps empty stderr to none, see C10). -/
theorem C3_normal_completion_result (fs : FS) (node_path script : String)
    (code : Int) (out err : String) :
    (execute_script fs node_path script (.runs (.completed code out err))).result =
      ExecResult.completed (code == 0) out (if err = "" then none else some err)
        code "Completed within timeout"
        (if out = "" then 0 else splitlines_len out)
        (if err = "" then 0 else splitlines_len err)
        (out.length + err.length)
    ∧ ((code == 0) = true ↔ code = 0) :=
  ⟨rfl, by simp⟩

/-- C4: create_script is a pure, deterministic function of its action and
parameter map: composing twice with identical inputs yields byte-identical
script text.  (The embedding is a pure Lean function of exactly these two
arguments; the only ambient data it reads are the fixed template constants
and the fixed CONFIG values baked into them.) -/
theorem C4_create_script_deterministic (action : String)
    (kwargs : List (String × String)) :
    create_script action kwargs = create_script action kwargs := rfl

/-- C5 (amended): the research url is interpolated between single-quote
delimiters with no escaping applied, so a url all of whose characters are
undisturbing for a single-quoted JavaScript literal — in particular one
containing double quotes but no single quote, backslash or line terminator —
cannot break out of its quoting: the literal closes exactly at the intended
closing quote, leaving exactly the intended remainder of the script.  The
second conjunct fixes where the url sits inside the composed script. -/
theorem C5_amended_url_quoting (u : String) (h : u.data.all goodUrlChar = true) :
    scanSingleQuoted (u.data ++ research_body_post.data) =
      some research_post_tail.data
    ∧ create_script "research" [("url", u)] =
        base_config ++ (research_body_pre ++ u ++ research_body_post) ++
          footer_text := by
  constructor
  · rw [research_body_post_data]
    exact scanSingleQuoted_good u.data h research_post_tail.data
  · rfl

/-- Witness for C5 (amended) at the concrete url consisting of one double
quote: the hypothesis is discharged by evaluation. -/
theorem C5_amended_url_quoting_witness :
    scanSingleQuoted ((String.mk [dquote]).data ++ research_body_post.data) =
      some research_post_tail.data
    ∧ create_script "research" [("url", String.mk [dquote])] =
        base_config ++
          (research_body_pre ++ String.mk [dquote] ++ research_body_post) ++
          footer_text :=
  C5_amended_url_quoting (String.mk [dquote]) (by decide)

/-- A url that contains a double quote and also a single quote. -/
def bad_url : String := String.mk [dquote, squote]

/-- C5 counterexample: the claim as stated quantifies over every url
containing a double-quote character; for the url consisting of a double
quote followed by a single quote — which does contain a double quote — the
interpolated url is inserted verbatim into the composed script and its
single quote closes the wrapping literal early, so the scan does not end at
the intended closing quote: the url breaks out of its quoting. -/
theorem C5_counterexample_quote_breakout :
    bad_url.data.contains dquote = true
    ∧ create_script "research" [("url", bad_url)] =
        base_config ++ (research_body_pre ++ bad_url ++ research_body_post) ++
          footer_text
    ∧ scanSingleQuoted (bad_url.data ++ research_body_post.data) ≠
        some research_post_tail.data := by
  refine ⟨by decide, rfl, ?_⟩
  have hscan : scanSingleQuoted (bad_url.data ++ research_body_post.data) =
      some research_body_post.data :=
    scanSingleQuoted_dquote_squote research_body_post.data
  rw [hscan, research_body_post_data]
  intro hcontra
  exact List.cons_ne_self squote research_post_tail.data
    (Option.some.inj hcontra)

/-- C6 counterexample: two invocations of execute_script with different
scripts use the same transient file name, refuting that no two Runner
invocations use the same name. -/
theorem C6_counterexample_same_name :
    (execute_script [] "node" "scriptA" (.runs (.completed 0 "" ""))).script_file =
      (execute_script [] "node" "scriptB" (.runs .timedOut)).script_file
    ∧ "scriptA" ≠ "scriptB" :=
  ⟨rfl, by decide⟩

/-- C6 (amended): every invocation of execute_script writes the composed
script to the transient file before spawning the child process, but the
name is the fixed constant temp_automation.js, identical across all
invocations rather than unique per invocation. -/
theorem C6_amended_fixed_transient_name (fs : FS) (node_path script : String)
    (b : Behavior) :
    (execute_script fs node_path script b).script_file = script_file_name
    ∧ script_file_name = "temp_automation.js" := by
  cases b with
  | writeRaises ty msg => exact ⟨rfl, rfl⟩
  | runs o => exact ⟨rfl, rfl⟩

/-- C7 counterexample: the result returned on the timeout path carries no
exit-code field, no stdout field and no output-statistics fields, refuting
that every result contains all ExecutionResult fields. -/
theorem C7_counterexample_missing_fields :
    ((execute_script [] "node" "x" (.runs .timedOut)).result.returnCodeField = none)
    ∧ ((execute_script [] "node" "x" (.runs .timedOut)).result.outputField = none)
    ∧ ((execute_script [] "node" "x" (.runs .timedOut)).result.statsField = none) :=
  ⟨rfl, rfl, rfl⟩

/-- C7 (amended): only results of normal completion within the timeout carry
all the ExecutionResult fields (success, stdout, optional stderr, exit code,
output statistics); the timeout and exception results carry success and a
diagnostic message but omit the stdout, exit-code and output-statistics
fields. -/
theorem C7_amended_fields_by_outcome (fs : FS) (node_path script : String) :
    (∀ (code : Int) (out err : String),
      ((execute_script fs node_path script (.runs (.completed code out err))).result.outputField = some out)
      ∧ ((execute_script fs node_path script (.runs (.completed code out err))).result.returnCodeField = some code)
      ∧ ((execute_script fs node_path script (.runs (.completed code out err))).result.statsField =
          some (if out = "" then 0 else splitlines_len out,
                if err = "" then 0 else splitlines_len err,
                out.length + err.length))
      ∧ ((execute_script fs node_path script (.runs (.completed code out err))).result.successField = (code == 0)))
    ∧ ((execute_script fs node_path script (.runs .timedOut)).result.returnCodeField = none
       ∧ (execute_script fs node_path script (.runs .timedOut)).result.outputField = none
       ∧ (execute_script fs node_path script (.runs .timedOut)).result.statsField = none
       ∧ (execute_script fs node_path script (.runs .timedOut)).result.successField = false)
    ∧ (∀ ty msg,
        (execute_script fs node_path script (.runs (.raised ty msg))).result.returnCodeField = none
        ∧ (execute_script fs node_path script (.runs (.raised ty msg))).result.outputField = none
        ∧ (execute_script fs node_path script (.runs (.raised ty msg))).result.statsField = none
        ∧ (execute_script fs node_path script (.runs (.raised ty msg))).result.successField = false) :=
  ⟨fun _ _ _ => ⟨rfl, rfl, rfl, rfl⟩,
   ⟨rfl, rfl, rfl, rfl⟩,
   fun _ _ => ⟨rfl, rfl, rfl, rfl⟩⟩

/-- C8: discovery never raises (the embedding of find_executables is a total
function covering the raising and non-raising probe outcomes, mirroring the
try/except pass wrappers): a failed probe — one that raised or exited
non-zero — yields none for its field, and when both probes fail the result
is (none, none). -/
theorem C8_discovery_none_on_failure (np nq : ProbeOutcome) :
    (probe_fails np = true → (find_executables np nq).1 = none)
    ∧ (probe_fails nq = true → (find_executables np nq).2 = none)
    ∧ (probe_fails np = true → probe_fails nq = true →
        find_executables np nq = (none, none)) := by
  have hfst : ∀ (p q : ProbeOutcome), probe_fails p = true →
      (find_executables p q).1 = none := by
    intro p q hp
    cases p with
    | raised => rfl
    | ran rc out =>
      have hrc : ¬ rc = 0 := by simpa [probe_fails] using hp
      show (if rc = 0 then some (strip_first_line out) else none) = none
      rw [if_neg hrc]
  have hsnd : ∀ (p q : ProbeOutcome), probe_fails q = true →
      (find_executables p q).2 = none := by
    intro p q hq
    cases q with
    | raised => rfl
    | ran rc out =>
      have hrc : ¬ rc = 0 := by simpa [probe_fails] using hq
      show (if rc = 0 then some (strip_first_line out) else none) = none
      rw [if_neg hrc]
  refine ⟨hfst np nq, hsnd np nq, fun h1 h2 => ?_⟩
  have hpair : find_executables np nq =
      ((find_executables np nq).1, (find_executables np nq).2) := rfl
  rw [hpair, hfst np nq h1, hsnd np nq h2]

/-- Witness for C8 at a host with no installed runtime or manager: the node
probe exits 1 (not found) and the npm probe raises; discovery returns
(none, none). -/
theorem C8_discovery_witness :
    find_executables (ProbeOutcome.ran 1 "") ProbeOutcome.raised =
      (none, none) :=
  (C8_discovery_none_on_failure (ProbeOutcome.ran 1 "") ProbeOutcome.raised).2.2
    (by decide) rfl

/-- C9: when the node_modules directory already exists, ensure_installation
returns the success outcome immediately with the state unchanged — so no
package.json is written (files unchanged) and the package manager is not
invoked (npm_invocations unchanged) — and a repeated call in the resulting
state behaves identically, never invoking the manager. -/
theorem C9_fast_path_idempotent (npm_path : String) (st : InstallState)
    (b b2 : InstallBehavior) (h : st.node_modules_exists = true) :
    ensure_installation npm_path st b =
      (⟨true, "Dependencies already installed", none, none, none, none⟩, st)
    ∧ ensure_installation npm_path (ensure_installation npm_path st b).2 b2 =
        (⟨true, "Dependencies already installed", none, none, none, none⟩, st) := by
  have h1 : ensure_installation npm_path st b =
      (⟨true, "Dependencies already installed", none, none, none, none⟩, st) := by
    simp [ensure_installation, h]
  refine ⟨h1, ?_⟩
  rw [h1]
  simp [ensure_installation, h]

/-- Witness for C9 at a concrete state with node_modules present. -/
theorem C9_fast_path_witness :
    ensure_installation "npm" ⟨true, [], 0⟩ (InstallBehavior.writeRaises "boom") =
      (⟨true, "Dependencies already installed", none, none, none, none⟩,
       (⟨true, [], 0⟩ : InstallState)) :=
  (C9_fast_path_idempotent "npm" ⟨true, [], 0⟩
    (InstallBehavior.writeRaises "boom") (InstallBehavior.writeRaises "boom")
    rfl).1

/-- C10: on normal completion the error field of the result is the Python
value (stderr if stderr else None): it equals none exactly when the child
wrote nothing to stderr, it equals the stderr text verbatim when that text
is nonempty, and it is never the empty string. -/
theorem C10_stderr_none_iff_empty (fs : FS) (node_path script : String)
    (code : Int) (out err : String) :
    ((execute_script fs node_path script (.runs (.completed code out err))).result.stderrField =
      (if err = "" then none else some err))
    ∧ ((execute_script fs node_path script (.runs (.completed code out err))).result.stderrField = none
        ↔ err = "")
    ∧ ((execute_script fs node_path script (.runs (.completed code out err))).result.stderrField ≠ some "") := by
  have hfield : (execute_script fs node_path script (.runs (.completed code out err))).result.stderrField =
      (if err = "" then none else some err) := rfl
  refine ⟨hfield, ?_, ?_⟩
  · rw [hfield]
    by_cases h : err = "" <;> simp [h]
  · rw [hfield]
    by_cases h : err = "" <;> simp [h]
